import Mathlib

/-!
# Verification of the fetch-cache-render pipeline of `app.py`

A shallow embedding of the single source file `app.py` (a Flask service
that ingests a creature document from the PokeAPI into Redis and renders
height-comparison bar charts from the cached document), together with
proofs of the specified properties.

Modelling conventions:

* JSON documents are the inductive type `Json`; Python truthiness
  (`if pokemon_data:`) is `Json.truthy`.
* The Redis store is an association list from string keys to the JSON
  documents stored under them.  The source stores `json.dumps(data)` and
  reads it back with `json.loads`; since `json.dumps` of any document is a
  non-empty (hence truthy) string and `json.loads` inverts it, the store
  is modelled as holding the document itself, and the `if data:` test on
  the raw serialized string in `fetch_pokemon_data_from_redis` succeeds
  exactly when the key is present.
* Every external call the code makes (outbound HTTP GET, Redis GET,
  Redis SET) is recorded in an event trace, so that "never fetches" and
  "never writes" claims are actual theorems about the trace.
* The upstream API (`requests.get`) is a parameter mapping a URL to an
  HTTP response.
* `matplotlib` calls are modelled by the `Chart` record they construct
  (title, y-label, bar categories, bar values, color); `plt.show` is an
  external display concern.
* Python string/number semantics used by the code are embedded exactly
  for the ASCII fragment: `str.lower`, `str.capitalize` (which also
  lowercases the tail), `dict[key]` (raising `KeyError`), and `float(x)`
  (accepting ints, bools and finite decimal string literals, raising
  `TypeError`/`ValueError` otherwise).
-/

/-- A JSON-compatible Python value, as produced by `json.loads`. -/
inductive Json where
  | null
  | bool (b : Bool)
  | num (q : ℚ)
  | str (s : String)
  | arr (elems : List Json)
  | obj (fields : List (String × Json))

/-- Python truthiness of a JSON value (`if x:`). -/
def Json.truthy : Json → Bool
  | .null => false
  | .bool b => b
  | .num q => decide (q ≠ 0)
  | .str s => !(s == "")
  | .arr elems => !elems.isEmpty
  | .obj fields => !fields.isEmpty

/-- A Python exception raised by the comparison path. -/
inductive PyError where
  | keyError (k : String)
  | typeError
  | valueError

/-- Python `d[k]` on a parsed JSON value: field lookup on an object
(`KeyError` when the key is missing), `TypeError` when indexing a
non-object with a string key. -/
def pyGetItem (j : Json) (k : String) : Except PyError Json :=
  match j with
  | .obj fields =>
      match fields.find? (fun p => p.1 == k) with
      | some p => .ok p.2
      | none => .error (.keyError k)
  | _ => .error .typeError

/-- Numeric value of an ASCII digit. -/
def digitVal? (c : Char) : Option Nat :=
  if '0' ≤ c ∧ c ≤ '9' then some (c.toNat - '0'.toNat) else none

/-- Base-10 value of a (possibly empty) list of digit characters;
`none` when a non-digit occurs. -/
def digitsVal (cs : List Char) : Option Nat :=
  cs.foldlM (fun a c => (digitVal? c).map (fun d => a * 10 + d)) 0

/-- Split a character list at the first `'.'`, if any. -/
def splitOnDot (cs : List Char) : List Char × Option (List Char) :=
  match cs.span (fun c => c != '.') with
  | (pre, []) => (pre, none)
  | (pre, _ :: post) => (pre, some post)

/-- Split a character list at the first `'e'`/`'E'`, if any. -/
def splitOnExp (cs : List Char) : List Char × Option (List Char) :=
  match cs.span (fun c => c != 'e' && c != 'E') with
  | (pre, []) => (pre, none)
  | (pre, _ :: post) => (pre, some post)

/-- Value of an unsigned decimal literal `digits`, `digits.digits`,
`.digits` or `digits.`. -/
def parseUnsignedDec (cs : List Char) : Option ℚ :=
  match splitOnDot cs with
  | (pre, none) =>
      if pre.isEmpty then none else (digitsVal pre).map (fun n => (n : ℚ))
  | (pre, some post) =>
      if pre.isEmpty && post.isEmpty then none
      else
        match digitsVal pre, digitsVal post with
        | some i, some f => some ((i : ℚ) + (f : ℚ) / ((10 : ℚ) ^ post.length))
        | _, _ => none

/-- Value of an optionally signed integer literal (used for exponents). -/
def parseSignedNatAsInt (cs : List Char) : Option Int :=
  match cs with
  | '+' :: rest => if rest.isEmpty then none else (digitsVal rest).map Int.ofNat
  | '-' :: rest => if rest.isEmpty then none else (digitsVal rest).map (fun n => -(n : Int))
  | _ => if cs.isEmpty then none else (digitsVal cs).map Int.ofNat

/-- Value of an unsigned float literal with optional exponent part. -/
def parseUnsignedFloatLit (cs : List Char) : Option ℚ :=
  match splitOnExp cs with
  | (mant, none) => parseUnsignedDec mant
  | (mant, some ex) =>
      match parseUnsignedDec mant, parseSignedNatAsInt ex with
      | some m, some e => some (m * (10 : ℚ) ^ e)
      | _, _ => none

/-- Value of an optionally signed float literal. -/
def parseFloatLit (cs : List Char) : Option ℚ :=
  match cs with
  | '+' :: rest => parseUnsignedFloatLit rest
  | '-' :: rest => (parseUnsignedFloatLit rest).map (fun q => -q)
  | _ => parseUnsignedFloatLit cs

/-- Strip leading and trailing whitespace. -/
def stripWs (cs : List Char) : List Char :=
  ((cs.dropWhile Char.isWhitespace).reverse.dropWhile Char.isWhitespace).reverse

/-- Python `float(s)` on a string: the value of a finite decimal literal
(`"7"`, `" -1.5e2 "`, ...), `none` (→ `ValueError`) otherwise.  Exotic
accepted forms (`inf`, `nan`, digit-group underscores, non-ASCII digits)
are outside the model; no claim exercises them. -/
def floatOfString? (s : String) : Option ℚ :=
  parseFloatLit (stripWs s.data)

/-- Python `float(x)` on a parsed JSON value: numbers and bools convert,
numeric strings parse (`ValueError` otherwise), and `None`/lists/objects
raise `TypeError`. -/
def pyFloat : Json → Except PyError ℚ
  | .num q => .ok q
  | .bool b => .ok (if b then 1 else 0)
  | .str s =>
      match floatOfString? s with
      | some q => .ok q
      | none => .error .valueError
  | _ => .error .typeError

/-- ASCII case-folding of one character, as Python `str.lower` does on
ASCII input. -/
def pyCharLower (c : Char) : Char :=
  if 'A' ≤ c ∧ c ≤ 'Z' then Char.ofNat (c.toNat + 32) else c

/-- ASCII upper-casing of one character. -/
def pyCharUpper (c : Char) : Char :=
  if 'a' ≤ c ∧ c ≤ 'z' then Char.ofNat (c.toNat - 32) else c

/-- Python `s.lower()` (ASCII fragment). -/
def pyLower (s : String) : String :=
  String.mk (s.data.map pyCharLower)

/-- Python `s.capitalize()`: first character upper-cased, the rest
lower-cased (ASCII fragment). -/
def pyCapitalize (s : String) : String :=
  match s.data with
  | [] => ""
  | c :: cs => String.mk (pyCharUpper c :: cs.map pyCharLower)

/-- The Redis store: keys to the JSON documents stored (serialized) under
them. -/
abbrev Store := List (String × Json)

/-- Redis `SET key value`: overwrite in place when the key exists,
append otherwise. -/
def Store.set : Store → String → Json → Store
  | [], k, v => [(k, v)]
  | (k₂, v₂) :: rest, k, v =>
      if k₂ = k then (k, v) :: rest else (k₂, v₂) :: Store.set rest k v

/-- Redis `GET key`. -/
def Store.get : Store → String → Option Json
  | [], _ => none
  | (k₂, v₂) :: rest, k => if k₂ = k then some v₂ else Store.get rest k

/-- One external call made by the pipeline. -/
inductive Event where
  | httpGet (url : String)
  | redisGet (key : String)
  | redisSet (key : String)

/-- An upstream HTTP response (`requests.get` result): status code, and
the parsed JSON body used when the status is 200. -/
structure HttpResponse where
  status : Nat
  body : Json

/-- The source's `PokemonDataLoader.api_url`. -/
def apiUrl : String := "https://pokeapi.co/api/v2/pokemon"

/-- Source `PokemonDataLoader.fetch_pokemon_data`: GET
`{api_url}/{pokemon_name.lower()}`; the parsed body on HTTP 200, `None`
on any other status. -/
def fetchPokemonData (upstream : String → HttpResponse) (pokemon_name : String) :
    Option Json × List Event :=
  let url := apiUrl ++ "/" ++ pyLower pokemon_name
  let response := upstream url
  if response.status = 200 then (some response.body, [.httpGet url])
  else (none, [.httpGet url])

/-- The cache key `f"pokemon:{pokemon_name.lower()}"`. -/
def redisKey (pokemon_name : String) : String :=
  "pokemon:" ++ pyLower pokemon_name

/-- Source `PokemonDataLoader.insert_into_redis`:
`redis_conn.set(redis_key, json.dumps(data))`. -/
def insertIntoRedis (store : Store) (pokemon_name : String) (data : Json) :
    Store × List Event :=
  let redis_key := redisKey pokemon_name
  (Store.set store redis_key data, [.redisSet redis_key])

/-- Source `PokemonDataLoader.fetch_pokemon_data_from_redis`:
`data = redis_conn.get(redis_key); return json.loads(data) if data else None`.
The serialized text of a stored document is non-empty, hence truthy, so
`if data:` succeeds exactly when the key is present. -/
def fetchPokemonDataFromRedis (store : Store) (pokemon_name : String) :
    Option Json × List Event :=
  let redis_key := redisKey pokemon_name
  match Store.get store redis_key with
  | some d => (some d, [.redisGet redis_key])
  | none => (none, [.redisGet redis_key])

/-- The bar chart a `plt.figure/bar/ylabel/title/show` block constructs. -/
structure Chart where
  title : String
  ylabel : String
  categories : List String
  values : List ℚ
  color : String

/-- The `Dog vs Pokemon` bar chart block. -/
def dogChart (pokemon_name : String) (dog_height pokemon_height : ℚ) : Chart :=
  { title := "Height Comparison: Dog vs " ++ pyCapitalize pokemon_name
    ylabel := "Height (m)"
    categories := ["Dog", pyCapitalize pokemon_name]
    values := [dog_height, pokemon_height]
    color := "blue" }

/-- The `Human vs Pokemon` bar chart block. -/
def humanChart (pokemon_name : String) (human_height pokemon_height : ℚ) : Chart :=
  { title := "Height Comparison: Human vs " ++ pyCapitalize pokemon_name
    ylabel := "Height (m)"
    categories := ["Human", pyCapitalize pokemon_name]
    values := [human_height, pokemon_height]
    color := "blue" }

/-- The `Elephant vs Pokemon` bar chart block. -/
def elephantChart (pokemon_name : String) (elephant_height pokemon_height : ℚ) : Chart :=
  { title := "Height Comparison: Elephant vs " ++ pyCapitalize pokemon_name
    ylabel := "Height (m)"
    categories := ["Elephant", pyCapitalize pokemon_name]
    values := [elephant_height, pokemon_height]
    color := "blue" }

/-- Source `PokemonHeightComparer.plot_height_comparison`: re-fetches the
document from Redis; when it is not `None`, computes
`pokemon_height = float(pokemon_data['height']) / 10` (propagating the
`KeyError`/`TypeError`/`ValueError` Python would raise) and produces the
three charts in source order (Dog, Human, Elephant). -/
def plotHeightComparison (store : Store) (pokemon_name : String)
    (human_height dog_height elephant_height : ℚ) :
    Except PyError (List Chart) × List Event :=
  match fetchPokemonDataFromRedis store pokemon_name with
  | (some pokemon_data, ev) =>
      match pyGetItem pokemon_data "height" with
      | .ok hv =>
          match pyFloat hv with
          | .ok h =>
              let pokemon_height := h / 10
              (.ok [dogChart pokemon_name dog_height pokemon_height,
                    humanChart pokemon_name human_height pokemon_height,
                    elephantChart pokemon_name elephant_height pokemon_height], ev)
          | .error e => (.error e, ev)
      | .error e => (.error e, ev)
  | (none, ev) => (.ok [], ev)

/-- Outcome of the `GET /pokemon/<name>` handler body. -/
inductive IngestResult where
  | ok (doc : Json)
  | failed (message : String)

/-- The ingest failure message body text. -/
def failedFetchMessage (pokemon_name : String) : String :=
  "Failed to fetch data for " ++ pyCapitalize pokemon_name ++ " from the Pokemon API."

/-- Source `Pokemon.get` (route `GET /pokemon/<name>`): fetch upstream; when the
result is truthy, insert it into Redis and return it; otherwise return
the failure message, with no cache write. -/
def pokemonGet (upstream : String → HttpResponse) (store : Store)
    (pokemon_name : String) : IngestResult × Store × List Event :=
  match fetchPokemonData upstream pokemon_name with
  | (some pokemon_data, ev₁) =>
      if pokemon_data.truthy then
        match insertIntoRedis store pokemon_name pokemon_data with
        | (store₂, ev₂) => (.ok pokemon_data, store₂, ev₁ ++ ev₂)
      else (.failed (failedFetchMessage pokemon_name), store, ev₁)
  | (none, ev₁) => (.failed (failedFetchMessage pokemon_name), store, ev₁)

/-- Outcome of the `GET /pokemon/<name>/height_comparison` handler body. -/
inductive CompareResult where
  | created (charts : List Chart) (message : String)
  | noData (message : String)
  | exn (e : PyError)

/-- The comparison "not in Redis" message body text. -/
def noDataMessage (pokemon_name : String) : String :=
  "Data for " ++ pyCapitalize pokemon_name ++ " does not exist in Redis."

/-- Source `PokemonHeightComparison.get` (route
`GET /pokemon/<name>/height_comparison`): read the cached document; when
truthy, run `plot_height_comparison(name, human, dog, elephant)` with the
fixed heights 1.7 / 0.5 / 3.5 and report success; otherwise report the
"does not exist in Redis" message.  An exception escaping the plot call
is recorded as `exn`. -/
def heightComparisonGet (store : Store) (pokemon_name : String) :
    CompareResult × Store × List Event :=
  let dog_height : ℚ := 0.5
  let human_height : ℚ := 1.7
  let elephant_height : ℚ := 3.5
  match fetchPokemonDataFromRedis store pokemon_name with
  | (some pokemon_data, ev₁) =>
      if pokemon_data.truthy then
        match plotHeightComparison store pokemon_name human_height dog_height elephant_height with
        | (.ok charts, ev₂) =>
            (.created charts "Height comparison charts created.", store, ev₁ ++ ev₂)
        | (.error e, ev₂) => (.exn e, store, ev₁ ++ ev₂)
      else (.noData (noDataMessage pokemon_name), store, ev₁)
  | (none, ev₁) => (.noData (noDataMessage pokemon_name), store, ev₁)

/-- An HTTP reply of the service: status code and JSON body. -/
structure HttpReply where
  status : Nat
  body : Json

/-- Flask `jsonify` of a message object. -/
def messageBody (m : String) : Json :=
  .obj [("message", .str m)]

/-- The `GET /pokemon/<name>` route as served by Flask: `jsonify` replies
carry status 200 in both branches. -/
def pokemonRoute (upstream : String → HttpResponse) (store : Store)
    (pokemon_name : String) : HttpReply × Store × List Event :=
  match pokemonGet upstream store pokemon_name with
  | (.ok d, store₂, ev) => ({ status := 200, body := d }, store₂, ev)
  | (.failed m, store₂, ev) => ({ status := 200, body := messageBody m }, store₂, ev)

/-- The `GET /pokemon/<name>/height_comparison` route as served by Flask:
`jsonify` replies carry status 200; an uncaught exception becomes the
framework's 500 reply. -/
def heightComparisonRoute (store : Store) (pokemon_name : String) :
    HttpReply × Store × List Event :=
  match heightComparisonGet store pokemon_name with
  | (.created _ m, store₂, ev) => ({ status := 200, body := messageBody m }, store₂, ev)
  | (.noData m, store₂, ev) => ({ status := 200, body := messageBody m }, store₂, ev)
  | (.exn _, store₂, ev) =>
      ({ status := 500, body := messageBody "Internal Server Error" }, store₂, ev)

/-- Is this event a cache write (`redis_conn.set`)? -/
def Event.isWrite : Event → Bool
  | .redisSet _ => true
  | _ => false

/-- Is this event a cache read (`redis_conn.get`)? -/
def Event.isCacheRead : Event → Bool
  | .redisGet _ => true
  | _ => false

/-! ## Basic lemmas about the store and the pipeline pieces -/

theorem Store.get_set_self (s : Store) (k : String) (v : Json) :
    Store.get (Store.set s k v) k = some v := by
  induction s with
  | nil => simp [Store.set, Store.get]
  | cons hd tl ih =>
      rcases hd with ⟨k₂, v₂⟩
      by_cases h : k₂ = k <;> simp [Store.set, Store.get, h, ih]

theorem Store.get_set_ne (s : Store) (k k₂ : String) (v : Json) (hne : k₂ ≠ k) :
    Store.get (Store.set s k v) k₂ = Store.get s k₂ := by
  have hne' : ¬k = k₂ := fun h => hne h.symm
  induction s with
  | nil => simp [Store.set, Store.get, hne']
  | cons hd tl ih =>
      rcases hd with ⟨k₃, v₃⟩
      by_cases h : k₃ = k
      · subst h
        simp [Store.set, Store.get, hne']
      · by_cases h₂ : k₃ = k₂ <;> simp [Store.set, Store.get, h, h₂, ih, hne]

theorem Store.set_set (s : Store) (k : String) (v : Json) :
    Store.set (Store.set s k v) k v = Store.set s k v := by
  induction s with
  | nil => simp [Store.set]
  | cons hd tl ih =>
      rcases hd with ⟨k₂, v₂⟩
      by_cases h : k₂ = k <;> simp [Store.set, h, ih]

theorem fetchFromRedis_eq (store : Store) (n : String) :
    fetchPokemonDataFromRedis store n =
      (Store.get store (redisKey n), [Event.redisGet (redisKey n)]) := by
  unfold fetchPokemonDataFromRedis
  cases h : Store.get store (redisKey n) <;> simp [h]

theorem fetchPokemonData_eq (upstream : String → HttpResponse) (n : String) :
    fetchPokemonData upstream n =
      ((if (upstream (apiUrl ++ "/" ++ pyLower n)).status = 200
        then some (upstream (apiUrl ++ "/" ++ pyLower n)).body else none),
       [Event.httpGet (apiUrl ++ "/" ++ pyLower n)]) := by
  unfold fetchPokemonData
  by_cases h : (upstream (apiUrl ++ "/" ++ pyLower n)).status = 200 <;> simp [h]

theorem pyGetItem_ok_truthy (D : Json) (k : String) (v : Json)
    (h : pyGetItem D k = Except.ok v) : D.truthy = true := by
  cases D <;> simp [pyGetItem] at h
  rename_i fields
  cases fields with
  | nil => simp [List.find?] at h
  | cons hd tl => simp [Json.truthy]

theorem pokemonGet_eq (upstream : String → HttpResponse) (store : Store) (n : String) :
    pokemonGet upstream store n =
      match (fetchPokemonData upstream n).1 with
      | some d =>
          if d.truthy then
            (.ok d, Store.set store (redisKey n) d,
             [Event.httpGet (apiUrl ++ "/" ++ pyLower n), Event.redisSet (redisKey n)])
          else
            (.failed (failedFetchMessage n), store,
             [Event.httpGet (apiUrl ++ "/" ++ pyLower n)])
      | none =>
          (.failed (failedFetchMessage n), store,
           [Event.httpGet (apiUrl ++ "/" ++ pyLower n)]) := by
  unfold pokemonGet
  rw [fetchPokemonData_eq]
  by_cases h : (upstream (apiUrl ++ "/" ++ pyLower n)).status = 200 <;>
    simp [h, insertIntoRedis]

theorem plot_spec (store : Store) (n : String) (D : Json) (h : ℚ)
    (hget : Store.get store (redisKey n) = some D)
    (hh : pyGetItem D "height" = Except.ok (Json.num h)) :
    plotHeightComparison store n 1.7 0.5 3.5 =
      (Except.ok [dogChart n 0.5 (h / 10), humanChart n 1.7 (h / 10),
                  elephantChart n 3.5 (h / 10)],
       [Event.redisGet (redisKey n)]) := by
  unfold plotHeightComparison
  rw [fetchFromRedis_eq, hget]
  simp [hh, pyFloat]

theorem plot_trace (store : Store) (n : String) (hh dh eh : ℚ) :
    (plotHeightComparison store n hh dh eh).2 = [Event.redisGet (redisKey n)] := by
  unfold plotHeightComparison
  rw [fetchFromRedis_eq]
  cases hg : Store.get store (redisKey n) with
  | none => simp [hg]
  | some D =>
      simp only [hg]
      cases hgi : pyGetItem D "height" with
      | error e => simp [hgi]
      | ok hv => cases hq : pyFloat hv <;> simp [hgi, hq]

theorem heightComparisonGet_eq (store : Store) (n : String) :
    heightComparisonGet store n =
      (match Store.get store (redisKey n) with
       | some D =>
           if D.truthy then
             match (plotHeightComparison store n 1.7 0.5 3.5).1 with
             | .ok charts => CompareResult.created charts "Height comparison charts created."
             | .error e => CompareResult.exn e
           else CompareResult.noData (noDataMessage n)
       | none => CompareResult.noData (noDataMessage n),
       store,
       match Store.get store (redisKey n) with
       | some D =>
           if D.truthy then [Event.redisGet (redisKey n), Event.redisGet (redisKey n)]
           else [Event.redisGet (redisKey n)]
       | none => [Event.redisGet (redisKey n)]) := by
  unfold heightComparisonGet
  rw [fetchFromRedis_eq]
  cases hg : Store.get store (redisKey n) with
  | none => simp [hg]
  | some D =>
      simp only [hg]
      by_cases ht : D.truthy
      · rcases hp : plotHeightComparison store n 1.7 0.5 3.5 with ⟨res, ev⟩
        have hev : ev = [Event.redisGet (redisKey n)] := by
          have h₂ := plot_trace store n 1.7 0.5 3.5
          rw [hp] at h₂
          exact h₂
        subst hev
        cases res <;> simp [ht, hp]
      · simp [ht]

theorem pokemonGet_ok_cases (upstream : String → HttpResponse) (store : Store)
    (n : String) (D : Json)
    (hok : (pokemonGet upstream store n).1 = IngestResult.ok D) :
    (fetchPokemonData upstream n).1 = some D ∧ D.truthy = true ∧
    (pokemonGet upstream store n).2.1 = Store.set store (redisKey n) D := by
  rw [pokemonGet_eq] at hok ⊢
  generalize hfd : (fetchPokemonData upstream n).1 = F at hok ⊢
  cases F with
  | none => simp at hok
  | some d =>
      by_cases ht : d.truthy
      · simp only [ht, if_true] at hok ⊢
        injection hok with hD
        subst hD
        exact ⟨rfl, ht, rfl⟩
      · simp [ht] at hok

theorem compare_created_message (store : Store) (n : String) (cs : List Chart)
    (m : String)
    (h : (heightComparisonGet store n).1 = CompareResult.created cs m) :
    m = "Height comparison charts created." := by
  rw [heightComparisonGet_eq] at h
  generalize hg : Store.get store (redisKey n) = G at h
  cases G with
  | none => simp at h
  | some D =>
      by_cases ht : D.truthy
      · simp only [ht, if_true] at h
        generalize hp : (plotHeightComparison store n 1.7 0.5 3.5).1 = P at h
        cases P with
        | ok charts =>
            injection h with h₁ h₂
            exact h₂.symm
        | error e => simp at h
      · simp [ht] at h

/-! ## The claims -/

/-- C1: Round-trip.  For every document `D` successfully ingested under
name `N` (the `/pokemon/<name>` handler returned `Ingested(D)`, having
stored `D` in the cache), a subsequent `CompareHeights(N)` reads back the
same document `D` from the cache, and — when `D` carries a numeric
`height` field `h` — derives the creature height used in every chart as
`height_m = h / 10`. -/
theorem c1_ingest_round_trip (upstream : String → HttpResponse) (store : Store)
    (N : String) (D : Json) (h : ℚ)
    (hok : (pokemonGet upstream store N).1 = IngestResult.ok D)
    (hh : pyGetItem D "height" = Except.ok (Json.num h)) :
    (fetchPokemonDataFromRedis (pokemonGet upstream store N).2.1 N).1 = some D ∧
    (plotHeightComparison (pokemonGet upstream store N).2.1 N 1.7 0.5 3.5).1 =
      Except.ok [dogChart N 0.5 (h / 10), humanChart N 1.7 (h / 10),
                 elephantChart N 3.5 (h / 10)] := by
  obtain ⟨hfd, ht, hst⟩ := pokemonGet_ok_cases upstream store N D hok
  constructor
  · rw [hst, fetchFromRedis_eq]
    simp [Store.get_set_self]
  · rw [hst,
      plot_spec (Store.set store (redisKey N) D) N D h
        (Store.get_set_self store (redisKey N) D) hh]

/-- Witness for C1: ingesting `{"height": 7}` as "pikachu" into an empty
cache and comparing reads back the document and uses `7 / 10` metres. -/
theorem c1_ingest_round_trip_witness :
    (fetchPokemonDataFromRedis
        (pokemonGet (fun _ => ⟨200, Json.obj [("height", Json.num 7)]⟩) [] "pikachu").2.1
        "pikachu").1 = some (Json.obj [("height", Json.num 7)]) ∧
    (plotHeightComparison
        (pokemonGet (fun _ => ⟨200, Json.obj [("height", Json.num 7)]⟩) [] "pikachu").2.1
        "pikachu" 1.7 0.5 3.5).1 =
      Except.ok [dogChart "pikachu" 0.5 (7 / 10), humanChart "pikachu" 1.7 (7 / 10),
                 elephantChart "pikachu" 3.5 (7 / 10)] :=
  c1_ingest_round_trip (fun _ => ⟨200, Json.obj [("height", Json.num 7)]⟩) []
    "pikachu" (Json.obj [("height", Json.num 7)]) 7 rfl rfl

/-- C2: For every cached document with numeric `height` field `h`,
`CompareHeights` converts decimeters to meters via `height_m = h / 10`
and constructs exactly three comparison charts with the fixed reference
values, in the order Dog 0.5, Human 1.7, Elephant 3.5, each a bar chart
titled `Height Comparison: <Subject> vs <CapitalizedName>` with two bars
in the order (reference subject, creature); and `h = 7` yields
`height_m = 0.7`. -/
theorem c2_comparison_specs (store : Store) (name : String) (D : Json) (h : ℚ)
    (hget : (fetchPokemonDataFromRedis store name).1 = some D)
    (hh : pyGetItem D "height" = Except.ok (Json.num h)) :
    (heightComparisonGet store name).1 =
      CompareResult.created
        [{ title := "Height Comparison: Dog vs " ++ pyCapitalize name
           ylabel := "Height (m)"
           categories := ["Dog", pyCapitalize name]
           values := [0.5, h / 10]
           color := "blue" },
         { title := "Height Comparison: Human vs " ++ pyCapitalize name
           ylabel := "Height (m)"
           categories := ["Human", pyCapitalize name]
           values := [1.7, h / 10]
           color := "blue" },
         { title := "Height Comparison: Elephant vs " ++ pyCapitalize name
           ylabel := "Height (m)"
           categories := ["Elephant", pyCapitalize name]
           values := [3.5, h / 10]
           color := "blue" }]
        "Height comparison charts created." ∧
    (h = 7 → h / 10 = 0.7) := by
  have hg : Store.get store (redisKey name) = some D := by
    rw [fetchFromRedis_eq] at hget
    exact hget
  have ht := pyGetItem_ok_truthy D "height" (Json.num h) hh
  constructor
  · rw [heightComparisonGet_eq, hg]
    simp only [ht, if_true, plot_spec store name D h hg hh]
    rfl
  · rintro rfl
    norm_num

/-- Witness for C2: a cache holding `{"height": 7}` under
`pokemon:pikachu` yields the three charts with creature height
`7 / 10 = 0.7` metres. -/
theorem c2_comparison_specs_witness :
    (heightComparisonGet [("pokemon:pikachu", Json.obj [("height", Json.num 7)])]
        "pikachu").1 =
      CompareResult.created
        [{ title := "Height Comparison: Dog vs " ++ pyCapitalize "pikachu"
           ylabel := "Height (m)"
           categories := ["Dog", pyCapitalize "pikachu"]
           values := [0.5, (7 : ℚ) / 10]
           color := "blue" },
         { title := "Height Comparison: Human vs " ++ pyCapitalize "pikachu"
           ylabel := "Height (m)"
           categories := ["Human", pyCapitalize "pikachu"]
           values := [1.7, (7 : ℚ) / 10]
           color := "blue" },
         { title := "Height Comparison: Elephant vs " ++ pyCapitalize "pikachu"
           ylabel := "Height (m)"
           categories := ["Elephant", pyCapitalize "pikachu"]
           values := [3.5, (7 : ℚ) / 10]
           color := "blue" }]
        "Height comparison charts created." ∧
    (7 : ℚ) / 10 = 0.7 :=
  ⟨(c2_comparison_specs [("pokemon:pikachu", Json.obj [("height", Json.num 7)])]
      "pikachu" (Json.obj [("height", Json.num 7)]) 7 rfl rfl).1,
   (c2_comparison_specs [("pokemon:pikachu", Json.obj [("height", Json.num 7)])]
      "pikachu" (Json.obj [("height", Json.num 7)]) 7 rfl rfl).2 rfl⟩

/-- C3: Case-insensitivity of the cache-key scheme.  Names equal up to
letter case (equal after lowering) produce the same cache key, of the
form `pokemon:<lowercased-name>`; ingest and comparison address that one
key, and a write to it overwrites in place, so a read through the other
spelling sees the written document. -/
theorem c3_cache_key_case_insensitive (n₁ n₂ : String) (store : Store) (d : Json)
    (hcase : pyLower n₁ = pyLower n₂) :
    redisKey n₁ = redisKey n₂ ∧
    redisKey n₁ = "pokemon:" ++ pyLower n₁ ∧
    (insertIntoRedis store n₁ d).1 = (insertIntoRedis store n₂ d).1 ∧
    (fetchPokemonDataFromRedis store n₁).1 = (fetchPokemonDataFromRedis store n₂).1 ∧
    Store.get (insertIntoRedis store n₁ d).1 (redisKey n₂) = some d := by
  have hkey : redisKey n₁ = redisKey n₂ := by
    unfold redisKey
    rw [hcase]
  refine ⟨hkey, rfl, ?_, ?_, ?_⟩
  · show Store.set store (redisKey n₁) d = Store.set store (redisKey n₂) d
    rw [hkey]
  · rw [fetchFromRedis_eq, fetchFromRedis_eq, hkey]
  · show Store.get (Store.set store (redisKey n₁) d) (redisKey n₂) = some d
    rw [hkey]
    exact Store.get_set_self store (redisKey n₂) d

/-- Witness for C3 at "Pikachu" / "pikachu" on the empty store. -/
theorem c3_cache_key_case_insensitive_witness :
    redisKey "Pikachu" = redisKey "pikachu" ∧
    redisKey "Pikachu" = "pokemon:" ++ pyLower "Pikachu" ∧
    (insertIntoRedis [] "Pikachu" Json.null).1 =
      (insertIntoRedis [] "pikachu" Json.null).1 ∧
    (fetchPokemonDataFromRedis [] "Pikachu").1 =
      (fetchPokemonDataFromRedis [] "pikachu").1 ∧
    Store.get (insertIntoRedis [] "Pikachu" Json.null).1 (redisKey "pikachu") =
      some Json.null :=
  c3_cache_key_case_insensitive "Pikachu" "pikachu" [] Json.null rfl

/-- C4: Not-found path of Ingest.  Whenever the upstream API returns any
non-200 status, the fetcher returns absent (`None`, not an error), and
the `/pokemon/<name>` handler yields the failure message with no cache
write at all: its store component is the incoming store, its trace is
the single HTTP GET, and every key reads the same as before. -/
theorem c4_not_found_no_write (upstream : String → HttpResponse) (store : Store)
    (name : String)
    (hnf : (upstream (apiUrl ++ "/" ++ pyLower name)).status ≠ 200) :
    (fetchPokemonData upstream name).1 = none ∧
    pokemonGet upstream store name =
      (IngestResult.failed (failedFetchMessage name), store,
       [Event.httpGet (apiUrl ++ "/" ++ pyLower name)]) ∧
    ∀ k, Store.get (pokemonGet upstream store name).2.1 k = Store.get store k := by
  have hfd : (fetchPokemonData upstream name).1 = none := by
    rw [fetchPokemonData_eq]
    simp [hnf]
  have hpg : pokemonGet upstream store name =
      (IngestResult.failed (failedFetchMessage name), store,
       [Event.httpGet (apiUrl ++ "/" ++ pyLower name)]) := by
    rw [pokemonGet_eq, hfd]
  exact ⟨hfd, hpg, fun k => by rw [hpg]⟩

/-- Witness for C4: a 404 upstream leaves the empty cache empty and
reports the failure message. -/
theorem c4_not_found_no_write_witness :
    (fetchPokemonData (fun _ => ⟨404, Json.null⟩) "missingno").1 = none ∧
    pokemonGet (fun _ => ⟨404, Json.null⟩) [] "missingno" =
      (IngestResult.failed (failedFetchMessage "missingno"), [],
       [Event.httpGet (apiUrl ++ "/" ++ pyLower "missingno")]) :=
  ⟨(c4_not_found_no_write (fun _ => ⟨404, Json.null⟩) [] "missingno" (by decide)).1,
   (c4_not_found_no_write (fun _ => ⟨404, Json.null⟩) [] "missingno" (by decide)).2.1⟩

/-- C5: Comparison-before-ingest.  When the cache key is absent,
`CompareHeights(name)` yields the "does not exist in Redis" outcome with
the store unchanged and a trace of exactly one cache read; and for every
store and name, every event in the operation's trace is a cache read —
it never performs an upstream API fetch. -/
theorem c5_compare_before_ingest (store : Store) (name : String)
    (habs : Store.get store (redisKey name) = none) :
    heightComparisonGet store name =
      (CompareResult.noData (noDataMessage name), store,
       [Event.redisGet (redisKey name)]) ∧
    ∀ (s : Store) (n : String),
      ((heightComparisonGet s n).2.2.all Event.isCacheRead) = true := by
  constructor
  · rw [heightComparisonGet_eq, habs]
  · intro s n
    rw [heightComparisonGet_eq]
    cases hg : Store.get s (redisKey n) with
    | none => simp [Event.isCacheRead]
    | some D =>
        by_cases ht : D.truthy <;> simp [ht, Event.isCacheRead]

/-- Witness for C5 on the empty cache with name "ditto". -/
theorem c5_compare_before_ingest_witness :
    heightComparisonGet [] "ditto" =
      (CompareResult.noData (noDataMessage "ditto"), [],
       [Event.redisGet (redisKey "ditto")]) ∧
    ((heightComparisonGet [("pokemon:mew", Json.num 3)] "mew").2.2.all
        Event.isCacheRead) = true :=
  ⟨(c5_compare_before_ingest [] "ditto" rfl).1,
   (c5_compare_before_ingest [] "ditto" rfl).2 [("pokemon:mew", Json.num 3)] "mew"⟩

/-- C6: Idempotence of Ingest.  With an unchanged upstream (the same
response function), running the `/pokemon/<name>` handler twice gives
the same result, the same final store, and in particular an identical
cached document under the key after each call. -/
theorem c6_ingest_idempotent (upstream : String → HttpResponse) (store : Store)
    (name : String) :
    (pokemonGet upstream (pokemonGet upstream store name).2.1 name).1 =
      (pokemonGet upstream store name).1 ∧
    (pokemonGet upstream (pokemonGet upstream store name).2.1 name).2.1 =
      (pokemonGet upstream store name).2.1 ∧
    Store.get (pokemonGet upstream (pokemonGet upstream store name).2.1 name).2.1
        (redisKey name) =
      Store.get (pokemonGet upstream store name).2.1 (redisKey name) := by
  have hmain :
      (pokemonGet upstream (pokemonGet upstream store name).2.1 name).1 =
        (pokemonGet upstream store name).1 ∧
      (pokemonGet upstream (pokemonGet upstream store name).2.1 name).2.1 =
        (pokemonGet upstream store name).2.1 := by
    rw [pokemonGet_eq, pokemonGet_eq]
    generalize hfd : (fetchPokemonData upstream name).1 = F
    cases F with
    | none => exact ⟨rfl, rfl⟩
    | some d =>
        by_cases ht : d.truthy
        · simp only [ht, if_true]
          refine ⟨trivial, ?_⟩
          exact Store.set_set store (redisKey name) d
        · simp [ht]
  exact ⟨hmain.1, hmain.2, by rw [hmain.2]⟩

/-- C7: the comparison path does not surface a `MalformedRecord` error
for a cached document with a missing or non-numeric `height`: evaluating
the code on `{"name": "snorlax"}` raises an uncaught `KeyError('height')`
(surfaced by the framework as a 500 reply), and on `{"height": null}` an
uncaught `TypeError` — neither an explicit `MalformedRecord` result nor a
silent default. -/
theorem c7_malformed_height_uncaught_exception :
    (heightComparisonGet [("pokemon:snorlax", Json.obj [("name", Json.str "snorlax")])]
        "snorlax").1 = CompareResult.exn (PyError.keyError "height") ∧
    (heightComparisonGet [("pokemon:snorlax", Json.obj [("height", Json.null)])]
        "snorlax").1 = CompareResult.exn PyError.typeError ∧
    (heightComparisonRoute [("pokemon:snorlax", Json.obj [("name", Json.str "snorlax")])]
        "snorlax").1.status = 500 :=
  ⟨rfl, rfl, rfl⟩

theorem pokemonRoute_fst (upstream : String → HttpResponse) (store : Store)
    (name : String) :
    (pokemonRoute upstream store name).1 =
      match (pokemonGet upstream store name).1 with
      | .ok d => { status := 200, body := d }
      | .failed m => { status := 200, body := messageBody m } := by
  unfold pokemonRoute
  generalize (pokemonGet upstream store name) = r
  rcases r with ⟨res, st, ev⟩
  cases res <;> rfl

theorem heightComparisonRoute_fst (store : Store) (name : String) :
    (heightComparisonRoute store name).1 =
      match (heightComparisonGet store name).1 with
      | .created _ m => { status := 200, body := messageBody m }
      | .noData m => { status := 200, body := messageBody m }
      | .exn _ => { status := 500, body := messageBody "Internal Server Error" } := by
  unfold heightComparisonRoute
  generalize (heightComparisonGet store name) = r
  rcases r with ⟨res, st, ev⟩
  cases res <;> rfl

/-- C8: HTTP response behaviour of the two pokemon routes.  The success
and the not-found outcome of each route carry HTTP status 200; the
not-found bodies are exactly the "Failed to fetch data for
<Capitalized name> from the Pokemon API." and "Data for <Capitalized
name> does not exist in Redis." message objects, and the comparison
success body is exactly the "Height comparison charts created."
message object. -/
theorem c8_http_replies (upstream : String → HttpResponse) (store : Store)
    (name : String) :
    ((pokemonGet upstream store name).1 = IngestResult.failed (failedFetchMessage name) →
      (pokemonRoute upstream store name).1 =
        { status := 200,
          body := messageBody ("Failed to fetch data for " ++ pyCapitalize name ++
            " from the Pokemon API.") }) ∧
    (∀ D, (pokemonGet upstream store name).1 = IngestResult.ok D →
      (pokemonRoute upstream store name).1 = { status := 200, body := D }) ∧
    (∀ charts m, (heightComparisonGet store name).1 = CompareResult.created charts m →
      (heightComparisonRoute store name).1 =
        { status := 200, body := messageBody "Height comparison charts created." }) ∧
    ((heightComparisonGet store name).1 = CompareResult.noData (noDataMessage name) →
      (heightComparisonRoute store name).1 =
        { status := 200,
          body := messageBody ("Data for " ++ pyCapitalize name ++
            " does not exist in Redis.") }) := by
  refine ⟨?_, ?_, ?_, ?_⟩
  · intro hres
    rw [pokemonRoute_fst, hres]
    rfl
  · intro D hres
    rw [pokemonRoute_fst, hres]
  · intro charts m hres
    have hm := compare_created_message store name charts m hres
    rw [heightComparisonRoute_fst, hres, hm]
  · intro hres
    rw [heightComparisonRoute_fst, hres]
    rfl

/-- Witness for C8: the four reply shapes at concrete inputs — a 404
upstream, a successful ingest, a successful comparison, and a comparison
on an empty cache. -/
theorem c8_http_replies_witness :
    (pokemonRoute (fun _ => ⟨404, Json.null⟩) [] "mewtwo").1 =
      { status := 200,
        body := messageBody ("Failed to fetch data for " ++ pyCapitalize "mewtwo" ++
          " from the Pokemon API.") } ∧
    (pokemonRoute (fun _ => ⟨200, Json.obj [("height", Json.num 7)]⟩) [] "mewtwo").1 =
      { status := 200, body := Json.obj [("height", Json.num 7)] } ∧
    (heightComparisonRoute [("pokemon:mewtwo", Json.obj [("height", Json.num 7)])]
        "mewtwo").1 =
      { status := 200, body := messageBody "Height comparison charts created." } ∧
    (heightComparisonRoute [] "mewtwo").1 =
      { status := 200,
        body := messageBody ("Data for " ++ pyCapitalize "mewtwo" ++
          " does not exist in Redis.") } :=
  ⟨(c8_http_replies (fun _ => ⟨404, Json.null⟩) [] "mewtwo").1 rfl,
   (c8_http_replies (fun _ => ⟨200, Json.obj [("height", Json.num 7)]⟩) [] "mewtwo").2.1
     (Json.obj [("height", Json.num 7)]) rfl,
   (c8_http_replies (fun _ => ⟨200, Json.null⟩)
       [("pokemon:mewtwo", Json.obj [("height", Json.num 7)])] "mewtwo").2.2.1
     [dogChart "mewtwo" 0.5 (7 / 10), humanChart "mewtwo" 1.7 (7 / 10),
      elephantChart "mewtwo" 3.5 (7 / 10)]
     "Height comparison charts created." rfl,
   (c8_http_replies (fun _ => ⟨200, Json.null⟩) [] "mewtwo").2.2.2 rfl⟩

/-- C9: presence-by-truthiness edge case.  An HTTP 200 upstream reply
whose JSON body is falsy (empty object, empty array, null, 0, empty
string) makes Ingest take the not-found path — failure message, no cache
write, store unchanged; likewise a cached falsy document makes
CompareHeights report the "does not exist in Redis" outcome. -/
theorem c9_falsy_body_not_found (upstream : String → HttpResponse) (store : Store)
    (name : String) (D : Json)
    (h200 : upstream (apiUrl ++ "/" ++ pyLower name) = { status := 200, body := D })
    (hfalsy : D.truthy = false) :
    pokemonGet upstream store name =
      (IngestResult.failed (failedFetchMessage name), store,
       [Event.httpGet (apiUrl ++ "/" ++ pyLower name)]) ∧
    ∀ (s : Store) (n : String) (E : Json),
      Store.get s (redisKey n) = some E → E.truthy = false →
      (heightComparisonGet s n).1 = CompareResult.noData (noDataMessage n) := by
  constructor
  · rw [pokemonGet_eq, fetchPokemonData_eq]
    simp [h200, hfalsy]
  · intro s n E hget hf
    rw [heightComparisonGet_eq, hget]
    simp [hf]

/-- Witness for C9: a 200 reply with body `{}` is not ingested, and a
cached `{}` is reported as missing. -/
theorem c9_falsy_body_not_found_witness :
    pokemonGet (fun _ => ⟨200, Json.obj []⟩) [] "ditto" =
      (IngestResult.failed (failedFetchMessage "ditto"), [],
       [Event.httpGet (apiUrl ++ "/" ++ pyLower "ditto")]) ∧
    (heightComparisonGet [("pokemon:ditto", Json.obj [])] "ditto").1 =
      CompareResult.noData (noDataMessage "ditto") :=
  ⟨(c9_falsy_body_not_found (fun _ => ⟨200, Json.obj []⟩) [] "ditto" (Json.obj [])
      rfl rfl).1,
   (c9_falsy_body_not_found (fun _ => ⟨200, Json.obj []⟩) [] "ditto" (Json.obj [])
      rfl rfl).2 [("pokemon:ditto", Json.obj [])] "ditto" (Json.obj []) rfl rfl⟩

/-- C10: read-only frame property of CompareHeights.  For every name and
cache state, the operation returns the store it was given, every key
reads the same before and after, and its trace contains no cache
write. -/
theorem c10_compare_frame (store : Store) (name : String) :
    (heightComparisonGet store name).2.1 = store ∧
    (∀ k, Store.get (heightComparisonGet store name).2.1 k = Store.get store k) ∧
    ((heightComparisonGet store name).2.2.all (fun e => !(e.isWrite))) = true := by
  have hst : (heightComparisonGet store name).2.1 = store := by
    rw [heightComparisonGet_eq]
  refine ⟨hst, fun k => by rw [hst], ?_⟩
  rw [heightComparisonGet_eq]
  cases hg : Store.get store (redisKey name) with
  | none => simp [Event.isWrite]
  | some D => by_cases ht : D.truthy <;> simp [ht, Event.isWrite]
